import Mathlib

/-!
Shallow embedding of the authorization / identity-synchronization core of the
operational-dashboard repository, together with theorems settling the frozen
claims about it.

Embedded sources:
* `supabase_stock_table_migration.sql` — stock table row-level SELECT policies;
* `supabase_rls_policies_fixed.sql` — `get_current_user_role()` and the users
  table UPDATE policy;
* `server.js` — the Clerk webhook handler (`user.created` / `user.updated` /
  `user.deleted`) over the users table;
* `supabase/functions/create-user/index.ts` — the create-user gateway;
* `supabase/functions/sync-stock/index.ts` — the stock refresh worker.

Machine integers in the sources are ordinary JS numbers / SQL integers used
only for ids and quantities; they are modelled as `Nat`/`Int` (no overflow is
reachable in any claim). JS string truthiness (`''` is falsy) is modelled
explicitly where the code relies on `||` defaulting.
-/

namespace OpDash

/-- A row of `master_locations` (`supabase_rls_policies_fixed.sql`,
docs schema: `id SERIAL, name TEXT, value TEXT, is_active BOOLEAN`). -/
structure MasterLocation where
  id : Nat
  name : String
  is_active : Bool
deriving DecidableEq, Repr

/-- A row of `users` (docs schema: `clerk_id TEXT UNIQUE, name TEXT,
role TEXT, locations TEXT[]`). -/
structure UserRow where
  clerk_id : String
  name : String
  role : String
  locations : List String
deriving DecidableEq, Repr

/-- A row of `stock` (`supabase_stock_table_migration.sql`): quantities are
modelled as `Int` (they never matter to a claim). -/
structure StockRow where
  m_location_id : Nat
  location : String
  m_product_id : String
  name : String
  c_uom_id : Nat
  uom_name : String
  m_product_category_id : Nat
  product_category_name : String
  weight : Int
  sumqtyonhand : Int
  product_type : String
deriving DecidableEq, Repr

/-- The database state the row-level policies read from. -/
structure Db where
  users : List UserRow
  master_locations : List MasterLocation
deriving DecidableEq, Repr

/-- `get_current_user_role()` from `supabase_rls_policies_fixed.sql`:
`SELECT role INTO user_role FROM users WHERE clerk_id = auth.jwt()->>'sub'`
followed by `COALESCE(user_role, 'NO_ROLE')`.  `sub` is the caller's verified
Clerk id. -/
def get_current_user_role (db : Db) (sub : String) : String :=
  match db.users.find? (fun u => u.clerk_id == sub) with
  | some u => u.role
  | none => "NO_ROLE"

/-- `EXISTS (SELECT 1 FROM users WHERE clerk_id = sub AND stock.location =
ANY(locations))` — the caller-location membership test shared by the two
sales stock policies. -/
def callerAssignedMatch (db : Db) (sub : String) (s : StockRow) : Bool :=
  db.users.any (fun u => u.clerk_id == sub && u.locations.contains s.location)

/-- `EXISTS (SELECT 1 FROM master_locations ml WHERE ml.id = stock.m_location_id
AND ml.is_active = true)` — the referenced-location-active test shared by the
two sales stock policies. -/
def referencedLocationActive (db : Db) (s : StockRow) : Bool :=
  db.master_locations.any (fun ml => ml.id == s.m_location_id && ml.is_active)

/-- Policy "SuperAdmin can view all stock". -/
def superadminViewStock (db : Db) (sub : String) (_s : StockRow) : Bool :=
  get_current_user_role db sub == "SUPERADMIN_ROLE"

/-- Policy "BOD can view all stock". -/
def bodViewStock (db : Db) (sub : String) (_s : StockRow) : Bool :=
  get_current_user_role db sub == "BOD_ROLE"

/-- Policy "Auditors can view all stock". -/
def auditorViewStock (db : Db) (sub : String) (_s : StockRow) : Bool :=
  get_current_user_role db sub == "AUDITOR_ROLE"

/-- Policy "Sales Managers can view assigned location stock". -/
def salesManagerViewStock (db : Db) (sub : String) (s : StockRow) : Bool :=
  get_current_user_role db sub == "SALES_MANAGER_ROLE"
    && callerAssignedMatch db sub s
    && referencedLocationActive db s

/-- Policy "Sales Supervisors can view assigned location stock". -/
def salesSupervisorViewStock (db : Db) (sub : String) (s : StockRow) : Bool :=
  get_current_user_role db sub == "SALES_SUPERVISOR_ROLE"
    && callerAssignedMatch db sub s
    && referencedLocationActive db s

/-- Policy "SuperAdmin can manage stock" (`FOR ALL`, so it also grants
SELECT). -/
def superadminManageStock (db : Db) (sub : String) (_s : StockRow) : Bool :=
  get_current_user_role db sub == "SUPERADMIN_ROLE"

/-- A stock row is visible to a caller iff some (permissive) SELECT-capable
policy accepts it — the disjunction of the six policies of
`supabase_stock_table_migration.sql`. -/
def stockSelectAllowed (db : Db) (sub : String) (s : StockRow) : Bool :=
  superadminViewStock db sub s
    || bodViewStock db sub s
    || salesManagerViewStock db sub s
    || salesSupervisorViewStock db sub s
    || auditorViewStock db sub s
    || superadminManageStock db sub s

/-- The unrestricted-read role set named by claim C1 (administrative,
executive, auditor). -/
def unrestrictedStockRole (r : String) : Bool :=
  r == "SUPERADMIN_ROLE" || r == "BOD_ROLE" || r == "AUDITOR_ROLE"

/-- The location-scoped role set (sales manager, sales supervisor). -/
def locationScopedRole (r : String) : Bool :=
  r == "SALES_MANAGER_ROLE" || r == "SALES_SUPERVISOR_ROLE"

/-- Claim C1's visibility predicate, written exactly as the claim states it:
visible iff the role is unrestricted OR the row's location name is among the
caller's assigned location names and the referenced location is active (no
condition on the caller's role in the second disjunct). -/
def stockVisibleClaim (db : Db) (sub : String) (s : StockRow) : Bool :=
  unrestrictedStockRole (get_current_user_role db sub)
    || (callerAssignedMatch db sub s && referencedLocationActive db s)

/-- The amended visibility predicate: the second disjunct additionally
requires the caller's role to be location-scoped. -/
def stockVisibleAmended (db : Db) (sub : String) (s : StockRow) : Bool :=
  unrestrictedStockRole (get_current_user_role db sub)
    || (locationScopedRole (get_current_user_role db sub)
        && callerAssignedMatch db sub s && referencedLocationActive db s)

/-- Counterexample database for C1: one user with the default unprivileged
role but a non-empty assigned-location list, one active location. -/
def c1Db : Db :=
  { users := [⟨"u1", "Alice", "NO_ROLE", ["Jakarta"]⟩],
    master_locations := [⟨1, "Jakarta", true⟩] }

/-- Counterexample stock row for C1: located at the active location the
caller is assigned to. -/
def c1Stock : StockRow :=
  ⟨1, "Jakarta", "RICE-001", "Beras Premium IR64", 1, "ton", 1,
   "Beras Premium", 1, 1250, "rice"⟩

/-! ### Users table UPDATE policy (`supabase_rls_policies_fixed.sql`) -/

/-- `USING` clause of policy "Users update own or SUPERADMIN updates any":
`(auth.jwt()->>'sub')::text = clerk_id OR get_current_user_role() =
'SUPERADMIN_ROLE'`, evaluated on the existing row. -/
def usersUpdateUsing (db : Db) (sub : String) (old : UserRow) : Bool :=
  sub == old.clerk_id || get_current_user_role db sub == "SUPERADMIN_ROLE"

/-- `WITH CHECK` clause of the same policy, evaluated on the proposed new
row: `CASE WHEN get_current_user_role() = 'SUPERADMIN_ROLE' THEN true ELSE
(auth.jwt()->>'sub')::text = clerk_id END`. -/
def usersUpdateWithCheck (db : Db) (sub : String) (new : UserRow) : Bool :=
  if get_current_user_role db sub == "SUPERADMIN_ROLE" then true
  else sub == new.clerk_id

/-- Row-level UPDATE semantics: replacing `old` by `new` is permitted iff
`USING old` and `WITH CHECK new` both hold. -/
def usersUpdateAllowed (db : Db) (sub : String) (old new : UserRow) : Bool :=
  usersUpdateUsing db sub old && usersUpdateWithCheck db sub new

/-- Effect of an UPDATE targeting the row `old` with proposed row `new`:
if the policy permits it the stored row is replaced, otherwise the database
is unchanged (the statement is rejected). -/
def applyUsersUpdate (db : Db) (sub : String) (old new : UserRow) : Db :=
  if usersUpdateAllowed db sub old new then
    { db with users := db.users.map (fun u => if u == old then new else u) }
  else db

/-! ### Event Synchronizer (`server.js`, `POST /api/webhooks/clerk`) -/

/-- JS truthiness of a possibly-absent string: `undefined` and `''` are
falsy. -/
def jsTruthy : Option String → Bool
  | none => false
  | some s => !(s == "")

/-- JS `s || dflt` for a possibly-absent string. -/
def jsStrDefault (s : Option String) (dflt : String) : String :=
  match s with
  | none => dflt
  | some v => if v == "" then dflt else v

/-- The `public_metadata` blob carried by a webhook event. -/
structure WebhookMeta where
  role : Option String
  locations : Option (List String)
deriving DecidableEq, Repr

/-- The `evt.data` fields the webhook handler destructures. -/
structure WebhookData where
  id : String
  username : Option String
  public_metadata : Option WebhookMeta
  first_name : Option String
  last_name : Option String
deriving DecidableEq, Repr

/-- `public_metadata?.role || 'NO_ROLE'`. -/
def metaRole (pm : Option WebhookMeta) : String :=
  match pm with
  | none => "NO_ROLE"
  | some m => jsStrDefault m.role "NO_ROLE"

/-- `public_metadata?.locations || []` (a present array, even empty, is
truthy in JS). -/
def metaLocations (pm : Option WebhookMeta) : List String :=
  match pm with
  | none => []
  | some m => m.locations.getD []

/-- `const name = username || (first_name && last_name ? first+' '+last :
first_name || last_name) || 'User'` with JS string truthiness. -/
def webhookName (d : WebhookData) : String :=
  if jsTruthy d.username then d.username.getD ""
  else
    let mid : Option String :=
      if jsTruthy d.first_name && jsTruthy d.last_name then
        some (d.first_name.getD "" ++ " " ++ d.last_name.getD "")
      else if jsTruthy d.first_name then d.first_name
      else d.last_name
    if jsTruthy mid then mid.getD "" else "User"

/-- The row the webhook handler submits to the users table. -/
def webhookRow (d : WebhookData) : UserRow :=
  { clerk_id := d.id, name := webhookName d,
    role := metaRole d.public_metadata,
    locations := metaLocations d.public_metadata }

/-- `user.created` branch: a plain `.insert into users`.  The users table has
a UNIQUE constraint on `clerk_id` (users schema in the repo docs), so the
insert errors when a row with that id already exists; the handler only logs
the error.  `dbFail` models an external store failure; the returned `Bool` is
whether an error was logged. -/
def handleUserCreated (st : List UserRow) (d : WebhookData) (dbFail : Bool) :
    List UserRow × Bool :=
  if dbFail then (st, true)
  else if st.any (fun u => u.clerk_id == d.id) then (st, true)
  else (st ++ [webhookRow d], false)

/-- `user.updated` branch: `.update {name, role, locations} .eq('clerk_id',
id)` — every row with the event's clerk id gets the recomputed fields;
updating zero rows is not an error. -/
def handleUserUpdated (st : List UserRow) (d : WebhookData) (dbFail : Bool) :
    List UserRow × Bool :=
  if dbFail then (st, true)
  else
    (st.map (fun u =>
      if u.clerk_id == d.id then
        { u with name := webhookName d, role := metaRole d.public_metadata,
                 locations := metaLocations d.public_metadata }
      else u), false)

/-- `user.deleted` branch: `.delete .eq('clerk_id', id)`. -/
def handleUserDeleted (st : List UserRow) (d : WebhookData) (dbFail : Bool) :
    List UserRow × Bool :=
  if dbFail then (st, true)
  else (st.filter (fun u => !(u.clerk_id == d.id)), false)

/-- What the webhook endpoint reports and leaves behind. -/
structure WebhookOutcome where
  status : Nat
  success : Bool
  users : List UserRow
  loggedError : Bool
deriving DecidableEq, Repr

/-- The `POST /api/webhooks/clerk` handler of `server.js`: 500 when the
signing secret is unconfigured, 400 on missing svix headers or failed
signature verification, otherwise the event is dispatched by type and the
endpoint answers `{success: true}` regardless of the write outcome. -/
def clerkWebhook (secretSet headersPresent sigValid : Bool) (evtType : String)
    (d : WebhookData) (st : List UserRow) (dbFail : Bool) : WebhookOutcome :=
  if !secretSet then ⟨500, false, st, false⟩
  else if !headersPresent then ⟨400, false, st, false⟩
  else if !sigValid then ⟨400, false, st, false⟩
  else if evtType == "user.created" then
    let r := handleUserCreated st d dbFail
    ⟨200, true, r.1, r.2⟩
  else if evtType == "user.updated" then
    let r := handleUserUpdated st d dbFail
    ⟨200, true, r.1, r.2⟩
  else if evtType == "user.deleted" then
    let r := handleUserDeleted st d dbFail
    ⟨200, true, r.1, r.2⟩
  else ⟨200, true, st, false⟩

/-! ### Privileged Mutation Gateway
(`supabase/functions/create-user/index.ts`, `create-user` action) -/

/-- Outcome of `clerk.users.createUser` (external call, modelled as an
input). -/
inductive ClerkCreateOutcome
  | ok (id : String)
  | fail
deriving DecidableEq, Repr

/-- Outcome of a single store write (the users insert, or the compensating
Clerk delete). -/
inductive WriteOutcome
  | ok
  | fail
deriving DecidableEq, Repr

/-- Which branch of the gateway produced the response. -/
inductive GatewayKind
  | validationErr
  | clerkErr
  | dbErr
  | createdOk
deriving DecidableEq, Repr

/-- The `create-user` request body fields. -/
structure CreateUserReq where
  username : Option String
  password : Option String
  role : Option String
  locations : Option (List String)
deriving DecidableEq, Repr

/-- Observable result of one gateway `create-user` run: HTTP status, branch,
which external calls were issued, the Clerk identities left in existence
when the run ends, and whether a users row was inserted. -/
structure GatewayResult where
  status : Nat
  kind : GatewayKind
  clerkCreateAttempted : Bool
  dbInsertAttempted : Bool
  rollbackDeleteAttempted : Bool
  residualIdentities : List String
  userInserted : Bool
deriving DecidableEq, Repr

/-- The role allowlist hard-coded in the gateway's validation. -/
def privilegedRoles : List String :=
  ["SUPERADMIN_ROLE", "BOD_ROLE", "SALES_MANAGER_ROLE",
   "SALES_SUPERVISOR_ROLE", "AUDITOR_ROLE"]

/-- The `create-user` action: `if (!username || !password || !role)` → 400;
`if (password.length < 8)` → 400; role not in the allowlist → 400; then
Clerk create (failure → 400, no insert attempted); then the users insert
(failure → compensating Clerk delete, 500 with the database error). -/
def createUser (req : CreateUserReq) (clerkOut : ClerkCreateOutcome)
    (dbOut : WriteOutcome) (delOut : WriteOutcome) : GatewayResult :=
  if !(jsTruthy req.username && jsTruthy req.password && jsTruthy req.role) then
    ⟨400, .validationErr, false, false, false, [], false⟩
  else if (req.password.getD "").length < 8 then
    ⟨400, .validationErr, false, false, false, [], false⟩
  else if !(privilegedRoles.contains (req.role.getD "")) then
    ⟨400, .validationErr, false, false, false, [], false⟩
  else
    match clerkOut with
    | .fail => ⟨400, .clerkErr, true, false, false, [], false⟩
    | .ok cid =>
      match dbOut with
      | .ok => ⟨201, .createdOk, true, true, false, [cid], true⟩
      | .fail =>
        match delOut with
        | .ok => ⟨500, .dbErr, true, true, true, [], false⟩
        | .fail => ⟨500, .dbErr, true, true, true, [cid], false⟩

/-- A request that passes all three validation gates of `createUser`. -/
def validCreateReq (req : CreateUserReq) : Bool :=
  jsTruthy req.username && jsTruthy req.password && jsTruthy req.role
    && decide (8 ≤ (req.password.getD "").length)
    && privilegedRoles.contains (req.role.getD "")

/-! ### Stock Refresh Worker (`supabase/functions/sync-stock/index.ts`) -/

/-- An iDempiere feed reference `{id, identifier}`. -/
structure FeedRef where
  id : Nat
  identifier : String
deriving DecidableEq, Repr

/-- One record of the external feed, with the fields the worker reads.
`Weight`/`SumQtyOnHand` may be absent (`|| 0` in the source), `product_type`
may be absent (`|| 'RAW MATERIAL'`). -/
structure FeedRecord where
  AD_Org_ID : FeedRef
  id : Nat
  Name : String
  C_UOM_ID : FeedRef
  M_Product_Category_ID : FeedRef
  Weight : Option Int
  SumQtyOnHand : Option Int
  product_type : Option String
deriving DecidableEq, Repr

/-- `.from('master_locations').select(..).eq('id', extId)
.eq('is_active', true).single()`: succeeds iff exactly one active row has
that id; any error makes the worker skip the record. -/
def resolveFeedLocation (locs : List MasterLocation) (extId : Nat) :
    Option MasterLocation :=
  match locs.filter (fun ml => ml.id == extId && ml.is_active) with
  | [l] => some l
  | _ => none

/-- The field mapping from an accepted feed record (and its resolved
location) to a stock row; `location` is re-derived from the resolved
location's name, never from the feed's identifier. -/
def transformFeedRecord (l : MasterLocation) (r : FeedRecord) : StockRow :=
  { m_location_id := l.id, location := l.name,
    m_product_id := toString r.id, name := r.Name,
    c_uom_id := r.C_UOM_ID.id, uom_name := r.C_UOM_ID.identifier,
    m_product_category_id := r.M_Product_Category_ID.id,
    product_category_name := r.M_Product_Category_ID.identifier,
    weight := r.Weight.getD 0, sumqtyonhand := r.SumQtyOnHand.getD 0,
    product_type := jsStrDefault r.product_type "RAW MATERIAL" }

/-- The `stockRecords` the worker accepts from a feed: records whose
location reference resolves, transformed. -/
def acceptedRecords (locs : List MasterLocation) (feed : List FeedRecord) :
    List StockRow :=
  feed.filterMap (fun r =>
    (resolveFeedLocation locs r.AD_Org_ID.id).map
      (fun l => transformFeedRecord l r))

/-- Whether a stock row's `product_type` is in the refreshed class, i.e. the
argument of `.delete().in('product_type', ['RAW MATERIAL',
'FINISHED_GOODS'])`. -/
def refreshType (s : StockRow) : Bool :=
  s.product_type == "RAW MATERIAL" || s.product_type == "FINISHED_GOODS"

/-- The worker's effect on the stock table once the feed has been fetched
and parsed: zero accepted records → throw before any deletion; otherwise
delete every RAW MATERIAL / FINISHED_GOODS row, then insert the accepted
records. -/
def syncStock (locs : List MasterLocation) (existing : List StockRow)
    (feed : List FeedRecord) : Except String (List StockRow) :=
  let recs := acceptedRecords locs feed
  if recs.length == 0 then
    Except.error "No valid stock records to insert"
  else
    Except.ok (existing.filter (fun s => !refreshType s) ++ recs)

/-- The stock table after a run: unchanged when the run aborted with an
error. -/
def finalStock (locs : List MasterLocation) (existing : List StockRow)
    (feed : List FeedRecord) : List StockRow :=
  match syncStock locs existing feed with
  | .error _ => existing
  | .ok st => st

/-! ## Theorems -/

/-- C1 (counterexample): the claimed iff fails on the stock SELECT policies.
A caller whose stored role is the default `NO_ROLE` but whose assigned
location list contains an active location's name satisfies the claim's
right-hand side (not unrestricted, but location match and active reference),
yet no SELECT policy of the stock table accepts the row, so the query
returns nothing. -/
theorem c1_stock_visibility_counterexample :
    get_current_user_role c1Db "u1" = "NO_ROLE"
      ∧ stockVisibleClaim c1Db "u1" c1Stock = true
      ∧ stockSelectAllowed c1Db "u1" c1Stock = false :=
  ⟨rfl, rfl, rfl⟩

/-- C1 (amended): a caller sees a stock row iff their role is one of the
unrestricted-read roles (SUPERADMIN, BOD, AUDITOR), or their role is
location-scoped (SALES_MANAGER, SALES_SUPERVISOR) and the row's location
name is among the caller's assigned location entries and the location the
row references is active. -/
theorem c1_stock_visibility_amended (db : Db) (sub : String) (s : StockRow) :
    stockSelectAllowed db sub s = stockVisibleAmended db sub s := by
  simp only [stockSelectAllowed, superadminViewStock, bodViewStock,
    salesManagerViewStock, salesSupervisorViewStock, auditorViewStock,
    superadminManageStock, stockVisibleAmended, unrestrictedStockRole,
    locationScopedRole]
  generalize get_current_user_role db sub = r
  generalize callerAssignedMatch db sub s = x
  generalize referencedLocationActive db s = y
  generalize (r == "SUPERADMIN_ROLE") = a
  generalize (r == "BOD_ROLE") = b
  generalize (r == "SALES_MANAGER_ROLE") = m
  generalize (r == "SALES_SUPERVISOR_ROLE") = v
  generalize (r == "AUDITOR_ROLE") = w
  revert a b m v w x y
  decide

/-- Counterexample database for C2: a single non-administrative user. -/
def c2Db : Db :=
  { users := [⟨"u1", "Alice", "NO_ROLE", []⟩], master_locations := [] }

/-- The stored row the C2 caller targets (their own row). -/
def c2Old : UserRow := ⟨"u1", "Alice", "NO_ROLE", []⟩

/-- The proposed row for C2: same clerk id, role rewritten to SUPERADMIN. -/
def c2New : UserRow := ⟨"u1", "Alice", "SUPERADMIN_ROLE", []⟩

/-- C2 (code bug): the `WITH CHECK` clause of the users UPDATE policy only
verifies that the proposed row still carries the caller's own clerk id — it
never compares `role`/`locations` against the stored values, although the
policy's own comment says a non-SUPERADMIN "can only update own record and
not change role/locations".  A NO_ROLE caller updating their own row to
`role = 'SUPERADMIN_ROLE'` passes both clauses and the stored role
changes. -/
theorem c2_self_escalation_not_rejected :
    get_current_user_role c2Db "u1" = "NO_ROLE"
      ∧ usersUpdateAllowed c2Db "u1" c2Old c2New = true
      ∧ (applyUsersUpdate c2Db "u1" c2Old c2New).users = [c2New]
      ∧ c2New.role ≠ c2Old.role := by
  refine ⟨rfl, rfl, rfl, ?_⟩
  decide

/-- Pre-existing directory for C3: the identity `u1` already has a row (as
after a gateway create or a first delivery). -/
def c3St : List UserRow := [⟨"u1", "Bob", "SALES_MANAGER_ROLE", ["Jakarta"]⟩]

/-- A `user.created` event for `u1` whose metadata carries a different
role. -/
def c3Evt : WebhookData :=
  { id := "u1", username := some "bob",
    public_metadata := some ⟨some "auditor_role", some []⟩,
    first_name := none, last_name := none }

/-- C3 (code bug): the `user.created` handler is a plain insert, not an
upsert.  When a row keyed by the event's identity id already exists, the
second application is exactly a failed insert: an error is logged and the
stored row keeps its old role instead of being updated to the event's
metadata — contrary to the claim (and to the repo's own webhook guide,
which prescribes `upsert` with `onConflict: 'clerk_id'`). -/
theorem c3_created_is_failed_insert_not_upsert :
    (handleUserCreated c3St c3Evt false).1 = c3St
      ∧ (handleUserCreated c3St c3Evt false).2 = true
      ∧ ((handleUserCreated c3St c3Evt false).1.map UserRow.role)
          = ["SALES_MANAGER_ROLE"]
      ∧ metaRole c3Evt.public_metadata = "auditor_role" :=
  ⟨rfl, rfl, rfl, rfl⟩

/-- C4: for every request passing validation, if the Clerk create succeeds
and the users insert fails, the gateway issues the compensating Clerk delete
and answers 500 with the database error, leaving zero residual identity
(when the delete goes through) and no inserted user; and if the Clerk create
itself fails, the users insert is never attempted. -/
theorem c4_create_rollback (req : CreateUserReq) (cid : String)
    (h : validCreateReq req = true) :
    ((createUser req (.ok cid) .fail .ok).status = 500
      ∧ (createUser req (.ok cid) .fail .ok).kind = GatewayKind.dbErr
      ∧ (createUser req (.ok cid) .fail .ok).rollbackDeleteAttempted = true
      ∧ (createUser req (.ok cid) .fail .ok).residualIdentities = []
      ∧ (createUser req (.ok cid) .fail .ok).userInserted = false)
    ∧ (∀ dbOut delOut : WriteOutcome,
        (createUser req ClerkCreateOutcome.fail dbOut delOut).dbInsertAttempted
          = false) := by
  simp only [validCreateReq, Bool.and_eq_true, decide_eq_true_eq] at h
  obtain ⟨⟨⟨⟨hu, hp⟩, hr⟩, hlen⟩, hrole⟩ := h
  have hlt : ¬ ((req.password.getD "").length < 8) := Nat.not_lt.mpr hlen
  have hmem : req.role.getD "" ∈ privilegedRoles := by simpa using hrole
  constructor
  · simp [createUser, hu, hp, hr, hmem, hlt]
  · intro dbOut delOut
    simp [createUser, hu, hp, hr, hmem, hlt]

/-- Concrete valid request used by the C4/C7/C8 witnesses. -/
def c4Req : CreateUserReq :=
  ⟨some "admin2", some "password123", some "SALES_MANAGER_ROLE",
   some ["Jakarta"]⟩

/-- Witness for C4 at a concrete valid request. -/
theorem c4_create_rollback_witness :
    validCreateReq c4Req = true
      ∧ (((createUser c4Req (.ok "user_abc") .fail .ok).status = 500
          ∧ (createUser c4Req (.ok "user_abc") .fail .ok).kind
              = GatewayKind.dbErr
          ∧ (createUser c4Req (.ok "user_abc") .fail .ok).rollbackDeleteAttempted
              = true
          ∧ (createUser c4Req (.ok "user_abc") .fail .ok).residualIdentities
              = []
          ∧ (createUser c4Req (.ok "user_abc") .fail .ok).userInserted = false)
        ∧ (∀ dbOut delOut : WriteOutcome,
            (createUser c4Req ClerkCreateOutcome.fail dbOut
              delOut).dbInsertAttempted = false)) :=
  ⟨by decide, c4_create_rollback c4Req "user_abc" (by decide)⟩

/-- C7: a create-user request whose password is present but shorter than 8
characters is answered 400 from the validation stage, whatever the external
stores would have done: no Clerk create and no users insert is attempted. -/
theorem c7_short_password_rejected (req : CreateUserReq) (p : String)
    (hp : req.password = some p) (hlen : p.length < 8)
    (clerkOut : ClerkCreateOutcome) (dbOut delOut : WriteOutcome) :
    (createUser req clerkOut dbOut delOut).status = 400
      ∧ (createUser req clerkOut dbOut delOut).kind = GatewayKind.validationErr
      ∧ (createUser req clerkOut dbOut delOut).clerkCreateAttempted = false
      ∧ (createUser req clerkOut dbOut delOut).dbInsertAttempted = false := by
  rcases Bool.eq_false_or_eq_true
      (jsTruthy req.username && jsTruthy req.password && jsTruthy req.role)
    with hc | hc
  · have h2 : (req.password.getD "").length < 8 := by
      rw [hp]; exact hlen
    simp [createUser, hc, h2]
  · simp [createUser, hc]

/-- Request with a 5-character password for the C7 witness. -/
def c7Req : CreateUserReq :=
  ⟨some "alice", some "short", some "AUDITOR_ROLE", none⟩

/-- Witness for C7 at the spec's Scenario C password `"short"`. -/
theorem c7_short_password_rejected_witness :
    (c7Req.password = some "short" ∧ "short".length < 8)
      ∧ ((createUser c7Req (.ok "user_x") .ok .ok).status = 400
        ∧ (createUser c7Req (.ok "user_x") .ok .ok).kind
            = GatewayKind.validationErr
        ∧ (createUser c7Req (.ok "user_x") .ok .ok).clerkCreateAttempted
            = false
        ∧ (createUser c7Req (.ok "user_x") .ok .ok).dbInsertAttempted
            = false) :=
  ⟨⟨rfl, by decide⟩,
   c7_short_password_rejected c7Req "short" rfl (by decide)
     (.ok "user_x") .ok .ok⟩

/-- C8: a create-user request whose role field is any string outside the
five-role allowlist — in particular the default `NO_ROLE` — is answered 400
and neither store is touched. -/
theorem c8_invalid_role_rejected (req : CreateUserReq) (r : String)
    (hr : req.role = some r) (hnr : privilegedRoles.contains r = false)
    (clerkOut : ClerkCreateOutcome) (dbOut delOut : WriteOutcome) :
    (createUser req clerkOut dbOut delOut).status = 400
      ∧ (createUser req clerkOut dbOut delOut).kind = GatewayKind.validationErr
      ∧ (createUser req clerkOut dbOut delOut).clerkCreateAttempted = false
      ∧ (createUser req clerkOut dbOut delOut).dbInsertAttempted = false := by
  rcases Bool.eq_false_or_eq_true
      (jsTruthy req.username && jsTruthy req.password && jsTruthy req.role)
    with hc | hc
  · by_cases h2 : (req.password.getD "").length < 8
    · simp [createUser, hc, h2]
    · have h3 : ¬ (req.role.getD "" ∈ privilegedRoles) := by
        rw [hr]
        simpa using hnr
      simp [createUser, hc, h2, h3]
  · simp [createUser, hc]

/-- Request asking for the default unprivileged role, for the C8 witness. -/
def c8Req : CreateUserReq :=
  ⟨some "bob", some "password123", some "NO_ROLE", some []⟩

/-- Witness for C8 at role `NO_ROLE`. -/
theorem c8_invalid_role_rejected_witness :
    (c8Req.role = some "NO_ROLE"
        ∧ privilegedRoles.contains "NO_ROLE" = false)
      ∧ ((createUser c8Req (.ok "user_y") .ok .ok).status = 400
        ∧ (createUser c8Req (.ok "user_y") .ok .ok).kind
            = GatewayKind.validationErr
        ∧ (createUser c8Req (.ok "user_y") .ok .ok).clerkCreateAttempted
            = false
        ∧ (createUser c8Req (.ok "user_y") .ok .ok).dbInsertAttempted
            = false) :=
  ⟨⟨rfl, by decide⟩,
   c8_invalid_role_rejected c8Req "NO_ROLE" rfl (by decide)
     (.ok "user_y") .ok .ok⟩

/-- C5: a refresh run in which the feed is empty, or every record's location
reference fails to resolve to exactly one active location, throws
`'No valid stock records to insert'` before the delete and leaves the stock
table exactly as it was. -/
theorem c5_zero_accepted_aborts (locs : List MasterLocation)
    (existing : List StockRow) (feed : List FeedRecord)
    (h : feed = [] ∨ ∀ r ∈ feed, resolveFeedLocation locs r.AD_Org_ID.id = none) :
    syncStock locs existing feed
        = Except.error "No valid stock records to insert"
      ∧ finalStock locs existing feed = existing := by
  have hacc : acceptedRecords locs feed = [] := by
    rcases h with h | h
    · rw [h]; rfl
    · simp only [acceptedRecords]
      rw [List.filterMap_eq_nil_iff]
      intro r hr
      rw [h r hr]
      rfl
  refine ⟨?_, ?_⟩
  · simp [syncStock, hacc]
  · simp [finalStock, syncStock, hacc]

/-- Feed record for the C5 witness, referencing an inactive location. -/
def c5Feed : List FeedRecord :=
  [⟨⟨2, "OldDepo"⟩, 101, "Beras Mentah", ⟨1, "ton"⟩, ⟨4, "Bahan Baku"⟩,
    some 1, some 500, some "RAW MATERIAL"⟩]

/-- Location table for the C5/C9 witnesses: id 1 active, id 2 inactive. -/
def c5Locs : List MasterLocation := [⟨1, "Jakarta", true⟩, ⟨2, "OldDepo", false⟩]

/-- Pre-existing stock for the C5/C9 witnesses: one row outside the
refreshed class and one row of each refreshed `product_type`. -/
def c5Existing : List StockRow :=
  [⟨1, "Jakarta", "RICE-001", "Beras Premium", 1, "ton", 1, "Beras Premium",
    1, 100, "rice"⟩,
   ⟨1, "Jakarta", "RICE-002", "Beras Mentah", 1, "ton", 4, "Bahan Baku",
    1, 200, "RAW MATERIAL"⟩,
   ⟨1, "Jakarta", "RICE-003", "Beras Jadi", 1, "ton", 5, "Beras Jadi",
    1, 300, "FINISHED_GOODS"⟩]

/-- Witness for C5: the only feed record references the inactive location,
so nothing is accepted and the table survives unchanged. -/
theorem c5_zero_accepted_aborts_witness :
    (c5Feed = [] ∨ ∀ r ∈ c5Feed, resolveFeedLocation c5Locs r.AD_Org_ID.id = none)
      ∧ (syncStock c5Locs c5Existing c5Feed
            = Except.error "No valid stock records to insert"
        ∧ finalStock c5Locs c5Existing c5Feed = c5Existing) :=
  ⟨Or.inr (by decide),
   c5_zero_accepted_aborts c5Locs c5Existing c5Feed (Or.inr (by decide))⟩

/-- C9: whenever at least one feed record is accepted, the run replaces the
whole RAW MATERIAL / FINISHED_GOODS class: the resulting table is the old
rows of other product types followed by the accepted records, every old row
of another product type survives, and every row of the refreshed class in
the result comes from the feed (all old rows of both refreshed types are
deleted, even if the accepted records cover only one of them). -/
theorem c9_full_class_replace (locs : List MasterLocation)
    (existing : List StockRow) (feed : List FeedRecord)
    (h : acceptedRecords locs feed ≠ []) :
    syncStock locs existing feed
        = Except.ok (existing.filter (fun s => !refreshType s)
            ++ acceptedRecords locs feed)
      ∧ (∀ s ∈ existing, refreshType s = false →
          s ∈ finalStock locs existing feed)
      ∧ (∀ s ∈ finalStock locs existing feed, refreshType s = true →
          s ∈ acceptedRecords locs feed) := by
  have hcond : ((acceptedRecords locs feed).length == 0) = false :=
    beq_eq_false_iff_ne.mpr
      (fun hh => h (List.length_eq_zero.mp hh))
  have hsync : syncStock locs existing feed
      = Except.ok (existing.filter (fun s => !refreshType s)
          ++ acceptedRecords locs feed) := by
    simp [syncStock, hcond]
  have hfin : finalStock locs existing feed
      = existing.filter (fun s => !refreshType s)
          ++ acceptedRecords locs feed := by
    simp [finalStock, hsync]
  refine ⟨hsync, ?_, ?_⟩
  · intro s hs hnr
    rw [hfin]
    refine List.mem_append.mpr (Or.inl ?_)
    exact List.mem_filter.mpr ⟨hs, by simp [hnr]⟩
  · intro s hsmem hrt
    rw [hfin] at hsmem
    rcases List.mem_append.mp hsmem with h1 | h2
    · have := (List.mem_filter.mp h1).2
      rw [hrt] at this
      simp at this
    · exact h2

/-- Feed record for the C9 witness: one accepted RAW MATERIAL record at the
active location. -/
def c9Feed : List FeedRecord :=
  [⟨⟨1, "Jakarta"⟩, 102, "Beras Mentah Baru", ⟨1, "ton"⟩, ⟨4, "Bahan Baku"⟩,
    some 1, some 700, some "RAW MATERIAL"⟩]

/-- Witness for C9: with one accepted RAW MATERIAL record, the old
FINISHED_GOODS row is also deleted while the `rice` row survives. -/
theorem c9_full_class_replace_witness :
    acceptedRecords c5Locs c9Feed ≠ []
      ∧ (syncStock c5Locs c5Existing c9Feed
            = Except.ok (c5Existing.filter (fun s => !refreshType s)
                ++ acceptedRecords c5Locs c9Feed)
        ∧ (∀ s ∈ c5Existing, refreshType s = false →
            s ∈ finalStock c5Locs c5Existing c9Feed)
        ∧ (∀ s ∈ finalStock c5Locs c5Existing c9Feed, refreshType s = true →
            s ∈ acceptedRecords c5Locs c9Feed)) :=
  ⟨by decide, c9_full_class_replace c5Locs c5Existing c9Feed (by decide)⟩

/-- C6: for a signature-verified webhook delivery of any of the three
handled event types, the endpoint answers 200 `{success: true}` whatever the
store write did; when the write fails, the failure is only logged and the
directory is unchanged. -/
theorem c6_webhook_always_success (t : String) (d : WebhookData)
    (st : List UserRow) (dbFail : Bool)
    (h : t = "user.created" ∨ t = "user.updated" ∨ t = "user.deleted") :
    (clerkWebhook true true true t d st dbFail).status = 200
      ∧ (clerkWebhook true true true t d st dbFail).success = true
      ∧ (dbFail = true →
          (clerkWebhook true true true t d st dbFail).users = st
            ∧ (clerkWebhook true true true t d st dbFail).loggedError = true) := by
  rcases h with h | h | h <;> subst h <;>
    exact ⟨rfl, rfl, fun hf => by subst hf; exact ⟨rfl, rfl⟩⟩

/-- Witness for C6: an update delivery whose store write fails. -/
theorem c6_webhook_always_success_witness :
    ("user.updated" = "user.created" ∨ "user.updated" = "user.updated"
        ∨ "user.updated" = "user.deleted")
      ∧ ((clerkWebhook true true true "user.updated" c3Evt c3St true).status
            = 200
        ∧ (clerkWebhook true true true "user.updated" c3Evt c3St true).success
            = true
        ∧ (true = true →
            (clerkWebhook true true true "user.updated" c3Evt c3St true).users
                = c3St
              ∧ (clerkWebhook true true true "user.updated" c3Evt
                  c3St true).loggedError = true)) :=
  ⟨Or.inr (Or.inl rfl),
   c6_webhook_always_success "user.updated" c3Evt c3St true
     (Or.inr (Or.inl rfl))⟩

/-- C10: each field of a `created`/`updated` event's `public_metadata`
defaults independently — when the metadata is absent or lacks `role`, the
written row carries `role = 'NO_ROLE'`; when it is absent or lacks
`locations`, the written row carries `locations = []`.  This holds for the
insert payload and for every row the update touches, and on a fresh
directory the `created` handler inserts exactly that payload. -/
theorem c10_missing_metadata_defaults (d : WebhookData) (st : List UserRow) :
    ((d.public_metadata = none
        ∨ ∃ m, d.public_metadata = some m ∧ m.role = none) →
      (webhookRow d).role = "NO_ROLE"
        ∧ ∀ u ∈ (handleUserUpdated st d false).1, u.clerk_id = d.id →
            u.role = "NO_ROLE")
    ∧ ((d.public_metadata = none
        ∨ ∃ m, d.public_metadata = some m ∧ m.locations = none) →
      (webhookRow d).locations = []
        ∧ ∀ u ∈ (handleUserUpdated st d false).1, u.clerk_id = d.id →
            u.locations = [])
    ∧ (st.all (fun u => !(u.clerk_id == d.id)) = true →
        (handleUserCreated st d false).1 = st ++ [webhookRow d]) := by
  have hupd : ∀ u ∈ (handleUserUpdated st d false).1, u.clerk_id = d.id →
      u.role = metaRole d.public_metadata
        ∧ u.locations = metaLocations d.public_metadata := by
    intro u hu hid
    simp only [handleUserUpdated, if_neg, Bool.false_eq_true] at hu
    obtain ⟨v, hv, huv⟩ := List.mem_map.mp hu
    rcases Bool.eq_false_or_eq_true (v.clerk_id == d.id) with hvc | hvc
    · rw [if_pos hvc] at huv
      rw [← huv]
      exact ⟨rfl, rfl⟩
    · rw [if_neg (by simp [hvc])] at huv
      rw [← huv] at hid
      rw [hid] at hvc
      simp at hvc
  refine ⟨?_, ?_, ?_⟩
  · intro hrole
    have hr : metaRole d.public_metadata = "NO_ROLE" := by
      rcases hrole with h | ⟨m, hm, hmr⟩
      · rw [h]
        rfl
      · rw [hm]
        simp [metaRole, jsStrDefault, hmr]
    exact ⟨by simp [webhookRow, hr],
      fun u hu hid => (hupd u hu hid).1.trans hr⟩
  · intro hloc
    have hl : metaLocations d.public_metadata = [] := by
      rcases hloc with h | ⟨m, hm, hml⟩
      · rw [h]
        rfl
      · rw [hm]
        simp [metaLocations, hml]
    exact ⟨by simp [webhookRow, hl],
      fun u hu hid => (hupd u hu hid).2.trans hl⟩
  · intro hfresh
    have hnone : st.any (fun u => u.clerk_id == d.id) = false := by
      rw [Bool.eq_false_iff]
      intro hany
      obtain ⟨u, hu, hpu⟩ := List.any_eq_true.mp hany
      have := List.all_eq_true.mp hfresh u hu
      rw [hpu] at this
      simp at this
    simp [handleUserCreated, hnone]

/-- C10 witness event whose metadata has `locations` but no `role`. -/
def c10RoleEvt : WebhookData :=
  { id := "u9", username := some "carol",
    public_metadata := some ⟨none, some ["Jakarta"]⟩,
    first_name := none, last_name := none }

/-- C10 witness event whose metadata has a `role` but no `locations`. -/
def c10LocEvt : WebhookData :=
  { id := "u10", username := some "dave",
    public_metadata := some ⟨some "auditor_role", none⟩,
    first_name := none, last_name := none }

/-- Witness for C10: one event missing only `role`, one missing only
`locations`; each missing field lands as its default in the payload. -/
theorem c10_missing_metadata_defaults_witness :
    ((∃ m, c10RoleEvt.public_metadata = some m ∧ m.role = none)
      ∧ (webhookRow c10RoleEvt).role = "NO_ROLE")
      ∧ ((∃ m, c10LocEvt.public_metadata = some m ∧ m.locations = none)
        ∧ (webhookRow c10LocEvt).locations = []) :=
  ⟨⟨⟨⟨none, some ["Jakarta"]⟩, rfl, rfl⟩,
    ((c10_missing_metadata_defaults c10RoleEvt []).1
      (Or.inr ⟨⟨none, some ["Jakarta"]⟩, rfl, rfl⟩)).1⟩,
   ⟨⟨⟨some "auditor_role", none⟩, rfl, rfl⟩,
    ((c10_missing_metadata_defaults c10LocEvt []).2.1
      (Or.inr ⟨⟨some "auditor_role", none⟩, rfl, rfl⟩)).1⟩⟩

end OpDash
